import Mathlib

/-!
Shallow embedding of the credential lifecycle manager from
`depot/containerstore/credmanager.go`, with theorems checking the
natural-language specification against the code.

Conventions used throughout:

* Go `time.Duration` (an `int64` count of nanoseconds) is embedded as `Int`.
  None of the arithmetic performed by the embedded code can overflow an
  `int64` on the ranges involved (the policy only subtracts a value of
  smaller magnitude), so no wrap-around is modelled.
* Go functions returning `(T, error)` become functions returning
  `T × Option GoErr` (`none` is the nil error), which keeps the
  zero-value-on-error convention of the source observable.
* External collaborators (Go's `crypto/rsa`, `crypto/x509`, `encoding/pem`,
  the gouuid library, `net.ParseIP`, the injected clock) are modelled as
  deterministic functions over explicit byte/instant streams carried in a
  `World` value; each model carries a doc comment saying what it stands for.
  The repository code under `src/` is translated statement by statement.
* The supervision loop of `Runner` is embedded as a function of a script of
  wait-point outcomes (`LoopEvent`): each script entry says whether the
  rotation timer fired or a shutdown signal arrived at the single blocking
  `select`.  Observable effects (handler calls, metric emissions, timer
  arming, readiness signalling) are collected in an `Action` trace.
-/

namespace CredManagerProof

abbrev GoErr := String

/-- Go `time.Second` in nanoseconds. -/
def second : Int := 1000000000

/-- Go `time.Minute` in nanoseconds. -/
def minute : Int := 60 * second

/-- Go `time.Hour` in nanoseconds. -/
def hour : Int := 60 * minute

/-- Translation of `calculateCredentialRotationPeriod`
(credmanager.go lines 124-131).  Go division of `time.Duration` values is
`int64` division truncating toward zero, embedded as `Int.tdiv`. -/
def calculateCredentialRotationPeriod (validityPeriod : Int) : Int :=
  if validityPeriod > 4 * hour then
    validityPeriod - 30 * minute
  else
    let eighth := validityPeriod.tdiv 8
    validityPeriod - eighth

/-- C1: the rotation-period policy is a pure function of the validity period:
above four hours it subtracts thirty minutes, otherwise it subtracts the
truncating eighth of the validity period. -/
theorem c1_rotation_policy (validityPeriod : Int) :
    (4 * hour < validityPeriod →
      calculateCredentialRotationPeriod validityPeriod =
        validityPeriod - 30 * minute) ∧
    (validityPeriod ≤ 4 * hour →
      calculateCredentialRotationPeriod validityPeriod =
        validityPeriod - validityPeriod.tdiv 8) := by
  unfold calculateCredentialRotationPeriod
  constructor <;> intro h
  · rw [if_pos h]
  · rw [if_neg (not_lt.mpr h)]

/-- Witness for C1 at a validity period of five hours (long branch) and of
one hour (short branch). -/
theorem c1_rotation_policy_witness :
    calculateCredentialRotationPeriod (5 * hour) = 5 * hour - 30 * minute ∧
    calculateCredentialRotationPeriod hour = hour - hour.tdiv 8 :=
  ⟨(c1_rotation_policy (5 * hour)).1 (by decide),
   (c1_rotation_policy hour).2 (by decide)⟩

/-- Counterexample to C2 as stated: at a validity period of five nanoseconds
the truncating eighth is zero, so the rotation period equals the validity
period and is not strictly smaller. -/
theorem c2_counterexample :
    ¬ calculateCredentialRotationPeriod 5 < 5 := by decide

theorem one_le_tdiv_eight (v : Int) (h : 8 ≤ v) : 1 ≤ v.tdiv 8 := by
  obtain ⟨n, rfl⟩ : ∃ n : Nat, v = (n : Int) :=
    ⟨v.toNat, (Int.toNat_of_nonneg (by omega)).symm⟩
  have hn : 8 ≤ n := by exact_mod_cast h
  have h1 : 1 ≤ n / 8 := by omega
  show (1 : Int) ≤ ((n / 8 : Nat) : Int)
  exact_mod_cast h1

/-- C2 (amended): for every validity period of at least eight nanoseconds the
rotation period is strictly smaller than the validity period. -/
theorem c2_rotation_strictly_before_expiry (validityPeriod : Int)
    (h : 8 ≤ validityPeriod) :
    calculateCredentialRotationPeriod validityPeriod < validityPeriod := by
  have hm : (30 : Int) * minute = 1800000000000 := by norm_num [minute, second]
  unfold calculateCredentialRotationPeriod
  split
  · rw [hm]; omega
  · show validityPeriod - validityPeriod.tdiv 8 < validityPeriod
    have h1 := one_le_tdiv_eight validityPeriod h
    omega

/-- Witness for the amended C2 at a validity period of one hour. -/
theorem c2_rotation_strictly_before_expiry_witness :
    calculateCredentialRotationPeriod hour < hour :=
  c2_rotation_strictly_before_expiry hour (by decide)

/-! ## Data model

The fields of `executor.Container`, `internalroutes.InternalRoute`,
`pkix.Name` and `x509.Certificate` that the credential manager reads or
writes. -/

structure InternalRoute where
  Hostname : String
  deriving DecidableEq

structure CertificateProperties where
  OrganizationalUnit : List String
  deriving DecidableEq

structure Container where
  Guid : String
  InternalIP : String
  ExternalIP : String
  InternalRoutes : List InternalRoute
  CertificateProperties : CertificateProperties
  deriving DecidableEq

structure PkixName where
  CommonName : String
  OrganizationalUnit : List String
  deriving DecidableEq

/-- Model of `net.IP`: the claims only observe which string was handed to
`net.ParseIP`, so the parse result is kept as the source string. -/
structure NetIP where
  raw : String
  deriving DecidableEq

/-- Model of `net.ParseIP`. -/
def netParseIP (s : String) : NetIP := ⟨s⟩

inductive ExtKeyUsage where
  | clientAuth
  | serverAuth
  deriving DecidableEq

/-- Go `x509.KeyUsageDigitalSignature` (1 shifted left by 0). -/
def KeyUsageDigitalSignature : Nat := 1

/-- Go `x509.KeyUsageKeyEncipherment` (1 shifted left by 2). -/
def KeyUsageKeyEncipherment : Nat := 4

/-- Go `x509.KeyUsageKeyAgreement` (1 shifted left by 4). -/
def KeyUsageKeyAgreement : Nat := 16

/-- The fields of `x509.Certificate` used by the manager: template fields
written by `createCertificateTemplate` plus `Raw` (the DER bytes of a parsed
certificate, read off the CA certificate). -/
structure Certificate where
  SerialNumber : Int
  Subject : PkixName
  IPAddresses : List NetIP
  DNSNames : List String
  NotBefore : Int
  NotAfter : Int
  KeyUsage : Nat
  ExtKeyUsage : List ExtKeyUsage
  Raw : List Nat
  deriving DecidableEq

/-- Translation of the `certificateSAN` struct (credmanager.go lines
356-360); the defaults are Go's zero values for fields omitted from a
struct literal. -/
structure certificateSAN where
  IPAddress : String := ""
  InternalRoutes : List InternalRoute := []
  OrganizationalUnits : List String := []
  deriving DecidableEq

/-- Translation of `createCertificateTemplate` (credmanager.go lines
362-387). -/
def createCertificateTemplate (guid : String) (certSAN : certificateSAN)
    (notBefore notAfter : Int) : Certificate :=
  let ipaddr : List NetIP :=
    if certSAN.IPAddress.length = 0 then [] else [netParseIP certSAN.IPAddress]
  let dnsNames := guid :: certSAN.InternalRoutes.map (fun route => route.Hostname)
  { SerialNumber := 0
    Subject := { CommonName := guid
                 OrganizationalUnit := certSAN.OrganizationalUnits }
    IPAddresses := ipaddr
    DNSNames := dnsNames
    NotBefore := notBefore
    NotAfter := notAfter
    KeyUsage := KeyUsageDigitalSignature ||| KeyUsageKeyEncipherment |||
      KeyUsageKeyAgreement
    ExtKeyUsage := [ExtKeyUsage.clientAuth, ExtKeyUsage.serverAuth]
    Raw := [] }

/-! ## Models of the external cryptographic collaborators

Randomness is explicit: `World` carries the byte stream of the
constructor-injected entropy reader, the byte stream of the process-global
`crypto/rand` source, and the stream of instants the injected clock will
return.  Each library model consumes a prefix of the relevant stream and is
otherwise a deterministic function of its arguments. -/

structure RSAPublicKey where
  material : List Nat
  deriving DecidableEq

structure RSAPrivateKey where
  bits : Nat
  material : List Nat
  deriving DecidableEq

/-- Model of Go's `(*rsa.PrivateKey).Public()`. -/
def RSAPrivateKey.Public (k : RSAPrivateKey) : RSAPublicKey := ⟨k.material⟩

def rsaEntropyError : GoErr := "rsa.GenerateKey: random source exhausted"

def uuidRandomError : GoErr := "uuid.NewV4: random source exhausted"

def signEntropyError : GoErr := "x509.CreateCertificate: random source exhausted"

/-- Model of Go's `rsa.GenerateKey(random, bits)`: the key material is a
function of the bytes drawn from the supplied reader (one byte per eight
key bits), and generation fails exactly when the reader is exhausted. -/
def rsaGenerateKey (random : List Nat) (bits : Nat) :
    Except GoErr (RSAPrivateKey × List Nat) :=
  if random.length < bits / 8 then Except.error rsaEntropyError
  else Except.ok (⟨bits, random.take (bits / 8)⟩, random.drop (bits / 8))

/-- Model of Go's `x509.MarshalPKCS1PrivateKey`: an injective encoding of
the key. -/
def MarshalPKCS1PrivateKey (key : RSAPrivateKey) : List Nat :=
  key.bits :: key.material

/-- Model of the DER bytes produced by `x509.CreateCertificate`: the
to-be-signed template, the issuer name taken from the parent, the bound
public key, and the signature bytes. -/
structure SignedCert where
  tbs : Certificate
  issuer : PkixName
  pub : RSAPublicKey
  sig : List Nat
  deriving DecidableEq

/-- Model of Go's `x509.CreateCertificate(random, template, parent, pub,
priv)`: consumes 32 bytes of signature randomness from the supplied reader,
fails exactly when that reader is exhausted, and otherwise returns a
certificate embedding the template. -/
def x509CreateCertificate (random : List Nat) (template parent : Certificate)
    (pub : RSAPublicKey) (caPriv : RSAPrivateKey) :
    Except GoErr (SignedCert × List Nat) :=
  if random.length < 32 then Except.error signEntropyError
  else Except.ok (⟨template, parent.Subject, pub, caPriv.bits :: random.take 32⟩,
    random.drop 32)

/-- Model of gouuid's `uuid.NewV4()`: draws 16 bytes (128 bits) from the
PROCESS-GLOBAL `crypto/rand` stream.  The function takes no reader
argument in the library, so the call in `generateCredForSAN` cannot draw
from the constructor-injected entropy reader; the version/variant bit
fiddling is omitted because no claim depends on it. -/
def uuidNewV4 (globalRandom : List Nat) : Except GoErr (List Nat × List Nat) :=
  if globalRandom.length < 16 then Except.error uuidRandomError
  else Except.ok (globalRandom.take 16, globalRandom.drop 16)

/-- Model of `(*big.Int).SetBytes`: big-endian unsigned interpretation of a
byte slice. -/
def bytesBE (bs : List Nat) : Nat :=
  bs.foldl (fun acc b => acc * 256 + b % 256) 0

/-- The streams the embedded code consumes: the injected entropy reader,
the process-global `crypto/rand` stream, and the instants the injected
clock will hand out (`clock.Now`, and `clock.Since` via a further `Now`). -/
structure World where
  entropy : List Nat
  globalRandom : List Nat
  clock : List Int
  deriving DecidableEq

/-- One `clock.Now()` call: returns the next instant of the stream. -/
def World.now (w : World) : Int × World :=
  (w.clock.headD 0, { w with clock := w.clock.tail })

/-! ## PEM output model

`pem.Encode` writes one PEM block to a writer; the buffers built by
`generateCredForSAN` are modelled as the ordered list of blocks written,
which preserves exactly the information the claims are about (block type,
payload, and order within one buffer). -/

inductive PemPayload where
  | certDER (c : SignedCert)
  | rawBytes (bs : List Nat)
  deriving DecidableEq

structure PemBlock where
  blockType : String
  payload : PemPayload
  deriving DecidableEq

def certificatePEMBlockType : String := "CERTIFICATE"

def privateKeyPEMBlockType : String := "RSA PRIVATE KEY"

/-- Translation of `pemEncode` (credmanager.go lines 348-354).  The writers
used by the source are in-memory `bytes.Buffer` values and the blocks carry
no headers, for which Go's `pem.Encode` never fails; the error return is
kept so the caller's checks translate faithfully. -/
def pemEncode (bytes : PemPayload) (blockType : String)
    (writer : List PemBlock) : List PemBlock × Option GoErr :=
  (writer ++ [⟨blockType, bytes⟩], none)

/-- Translation of the `Credential` struct (credmanager.go lines 38-41),
with PEM string buffers modelled as block lists. -/
structure Credential where
  Cert : List PemBlock := []
  Key : List PemBlock := []
  deriving DecidableEq

/-- Translation of the `Credentials` struct (credmanager.go lines 33-36). -/
structure Credentials where
  InstanceIdentityCredential : Credential := {}
  C2CCredential : Credential := {}
  deriving DecidableEq

/-- The `CredentialHandler` interface (credmanager.go lines 86-100),
modelled as the handler's response functions; `CreateDir` is omitted as no
claim concerns it. -/
structure CredentialHandler where
  Update : Credentials → Container → Option GoErr
  Close : Credentials → Container → Option GoErr
  RemoveDir : Container → Option GoErr

/-- The fields of the `credManager` struct (credmanager.go lines 72-81)
that the embedded operations read; logger and metron client are pure
observers and appear as trace output instead, and the entropy reader and
clock live in `World`. -/
structure credManager where
  validityPeriod : Int
  CaCert : Certificate
  privateKey : RSAPrivateKey
  handlers : List CredentialHandler

/-- Translation of `generateCredForSAN` (credmanager.go lines 288-346):
generate a 2048-bit key pair from the injected entropy reader, build the
certificate template over the validity window starting at `clock.Now()`,
derive the serial number from a fresh UUID, sign with the CA key, and
PEM-encode key and certificate chain.  Error checks mirror the source
line by line; each failure returns the zero-value `Credential`. -/
def generateCredForSAN (c : credManager) (certSAN : certificateSAN)
    (certGUID : String) (w : World) : (Credential × Option GoErr) × World :=
  match rsaGenerateKey w.entropy 2048 with
  | Except.error e => (({}, some e), w)
  | Except.ok kr =>
    let privateKey := kr.1
    let w1 : World := { w with entropy := kr.2 }
    let n1 := w1.now
    let startValidity := n1.1
    let w2 := n1.2
    let template := createCertificateTemplate certGUID certSAN startValidity
      (startValidity + c.validityPeriod)
    match uuidNewV4 w2.globalRandom with
    | Except.error e => (({}, some e), w2)
    | Except.ok ur =>
      let w3 : World := { w2 with globalRandom := ur.2 }
      let template := { template with SerialNumber := Int.ofNat (bytesBE ur.1) }
      match x509CreateCertificate w3.entropy template c.CaCert
          privateKey.Public c.privateKey with
      | Except.error e => (({}, some e), w3)
      | Except.ok cr =>
        let certBytes := cr.1
        let w4 : World := { w3 with entropy := cr.2 }
        let privateKeyBytes := MarshalPKCS1PrivateKey privateKey
        let ke := pemEncode (PemPayload.rawBytes privateKeyBytes)
          privateKeyPEMBlockType []
        match ke.2 with
        | some e => (({}, some e), w4)
        | none =>
          let ce1 := pemEncode (PemPayload.certDER certBytes)
            certificatePEMBlockType []
          match ce1.2 with
          | some e => (({}, some e), w4)
          | none =>
            let ce2 := pemEncode (PemPayload.rawBytes c.CaCert.Raw)
              certificatePEMBlockType ce1.1
            match ce2.2 with
            | some e => (({}, some e), w4)
            | none => (({ Cert := ce2.1, Key := ke.1 }, none), w4)

/-- The subject spec `generateCreds` builds for the instance-identity
credential (credmanager.go lines 259-267): the container's internal IP,
falling back to the external IP when the internal IP is empty, plus the
organizational units; no internal routes. -/
def sanID (container : Container) : certificateSAN :=
  { IPAddress :=
      if container.InternalIP.length = 0 then container.ExternalIP
      else container.InternalIP
    OrganizationalUnits := container.CertificateProperties.OrganizationalUnit }

/-- The subject spec `generateCreds` builds for the container-to-container
credential (credmanager.go lines 274-276): the internal routes plus the
organizational units; no IP address. -/
def sanC2C (container : Container) : certificateSAN :=
  { InternalRoutes := container.InternalRoutes
    OrganizationalUnits := container.CertificateProperties.OrganizationalUnit }

/-- Translation of `generateCreds` (credmanager.go lines 254-286): generate
the instance-identity credential, then the container-to-container
credential; both share the same generation identifier.  Failures return
zero-value `Credentials`. -/
def generateCreds (c : credManager) (container : Container) (certGUID : String)
    (w : World) : (Credentials × Option GoErr) × World :=
  let r1 := generateCredForSAN c (sanID container) certGUID w
  match r1.1.2 with
  | some e => (({}, some e), r1.2)
  | none =>
    let r2 := generateCredForSAN c (sanC2C container) certGUID r1.2
    match r2.1.2 with
    | some e => (({}, some e), r2.2)
    | none =>
      (({ InstanceIdentityCredential := r1.1.1, C2CCredential := r2.1.1 },
        none), r2.2)

/-! ## Supervision loop and handler fan-out -/

def CredCreationSucceededCount : String := "CredCreationSucceededCount"

def CredCreationSucceededDuration : String := "CredCreationSucceededDuration"

def CredCreationFailedCount : String := "CredCreationFailedCount"

/-- Observable effects of the supervision loop and of `RemoveCredDir`. -/
inductive Action where
  | updateCall (i : Nat) (creds : Credentials) (container : Container)
  | closeCall (i : Nat) (creds : Credentials) (container : Container)
  | removeDirCall (i : Nat) (container : Container)
  | incrementCounter (name : String)
  | sendDuration (name : String) (d : Int)
  | newTimer (d : Int)
  | timerReset (d : Int)
  | closeReady
  deriving DecidableEq

/-- Outcome of one pass through the steady-state `select` (credmanager.go
line 204): either the rotation timer fired or a shutdown signal arrived. -/
inductive LoopEvent where
  | timerFired
  | signalReceived (sig : String)
  deriving DecidableEq

/-- How a run of the loop ended: `returned e` is the run function
returning (with nil or non-nil error); `blocked` means the script of wait
outcomes was exhausted with the loop still waiting. -/
inductive RunResult where
  | blocked
  | returned (err : Option GoErr)
  deriving DecidableEq

/-- The handler `Update` fan-out loops (credmanager.go lines 187-192 and
219-224): call `Update` on each handler in order, returning the first
error; `i` is the index of the first handler of the remaining list. -/
def updateHandlers : List CredentialHandler → Nat → Credentials → Container →
    List Action × Option GoErr
  | [], _, _, _ => ([], none)
  | h :: hs, i, creds, container =>
    match h.Update creds container with
    | some e => ([Action.updateCall i creds container], some e)
    | none =>
      let r := updateHandlers hs (i + 1) creds container
      (Action.updateCall i creds container :: r.1, r.2)

/-- The handler `Close` fan-out loop (credmanager.go lines 238-240): call
`Close` on every handler, discarding any error. -/
def closeHandlers : List CredentialHandler → Nat → Credentials → Container →
    List Action
  | [], _, _, _ => []
  | h :: hs, i, creds, container =>
    let _ := h.Close creds container
    Action.closeCall i creds container :: closeHandlers hs (i + 1) creds container

/-- The `RemoveCredDir` handler loop (credmanager.go lines 161-166): call
`RemoveDir` on every handler, collecting the non-nil errors in order. -/
def removeCredDirLoop : List CredentialHandler → Nat → Container →
    List Action × List GoErr
  | [], _, _ => ([], [])
  | h :: hs, i, container =>
    let r := removeCredDirLoop hs (i + 1) container
    match h.RemoveDir container with
    | some e => (Action.removeDirCall i container :: r.1, e :: r.2)
    | none => (Action.removeDirCall i container :: r.1, r.2)

/-- The `ErrorFormat` closure installed on the multierror value
(credmanager.go lines 148-159): append each error message, preceded by the
separator only when the string built so far is nonempty.  The nil check of
the source is vacuous here because only non-nil errors are appended. -/
def errorFormat (errs : List GoErr) : String :=
  errs.foldl (fun s e => (if s ≠ "" then s ++ "; " else s) ++ e) ""

/-- Translation of `RemoveCredDir` (credmanager.go lines 147-168), with the
trace of `RemoveDir` calls as first component.  `ErrorOrNil` on the
multierror value returns nil exactly when no error was appended. -/
def RemoveCredDir (c : credManager) (container : Container) :
    List Action × Option GoErr :=
  let r := removeCredDirLoop c.handlers 0 container
  (r.1, if r.2 = [] then none else some (errorFormat r.2))

/-- The steady-state `for`/`select` loop of `Runner` (credmanager.go lines
203-243), driven by the script of wait outcomes.  `k` counts the
`node.Info()` calls already made, so `info k` is the fresh container
snapshot fetched by the current iteration. -/
def steadyLoop (c : credManager) (info : Nat → Container) :
    List LoopEvent → Nat → World → List Action × RunResult
  | [], _, _ => ([], RunResult.blocked)
  | LoopEvent.timerFired :: rest, k, w =>
    let container := info k
    let n1 := w.now
    let start := n1.1
    let g := generateCreds c container container.Guid n1.2
    let n2 := g.2.now
    let duration := n2.1 - start
    match g.1.2 with
    | some e =>
      ([Action.incrementCounter CredCreationFailedCount],
       RunResult.returned (some e))
    | none =>
      let metrics := [Action.incrementCounter CredCreationSucceededCount,
        Action.sendDuration CredCreationSucceededDuration duration]
      let u := updateHandlers c.handlers 0 g.1.1 container
      match u.2 with
      | some e => (metrics ++ u.1, RunResult.returned (some e))
      | none =>
        let rotationDuration := calculateCredentialRotationPeriod c.validityPeriod
        let r := steadyLoop c info rest (k + 1) n2.2
        (metrics ++ u.1 ++ Action.timerReset rotationDuration :: r.1, r.2)
  | LoopEvent.signalReceived _ :: _, k, w =>
    let container := info k
    let g := generateCreds c container "" w
    match g.1.2 with
    | some e =>
      ([Action.incrementCounter CredCreationFailedCount],
       RunResult.returned (some e))
    | none =>
      (closeHandlers c.handlers 0 g.1.1 container, RunResult.returned none)

/-- Translation of the run function built by `Runner` (credmanager.go lines
170-247): initial issuance from a fresh snapshot, fan-out to the handlers,
success metrics, arming the rotation timer, signalling readiness, then the
steady-state loop. -/
def Runner (c : credManager) (info : Nat → Container) (events : List LoopEvent)
    (w : World) : List Action × RunResult :=
  let initialContainer := info 0
  let n1 := w.now
  let start := n1.1
  let g := generateCreds c initialContainer initialContainer.Guid n1.2
  match g.1.2 with
  | some e =>
    ([Action.incrementCounter CredCreationFailedCount],
     RunResult.returned (some e))
  | none =>
    let n2 := g.2.now
    let duration := n2.1 - start
    let u := updateHandlers c.handlers 0 g.1.1 initialContainer
    match u.2 with
    | some e => (u.1, RunResult.returned (some e))
    | none =>
      let metrics := [Action.incrementCounter CredCreationSucceededCount,
        Action.sendDuration CredCreationSucceededDuration duration]
      let rotationDuration := calculateCredentialRotationPeriod c.validityPeriod
      let r := steadyLoop c info events 1 n2.2
      (u.1 ++ metrics ++ Action.newTimer rotationDuration ::
        Action.closeReady :: r.1, r.2)

/-! ## Derived observables and characterization lemmas

`issuedKey`, `issuedTemplate`, `issuedCert`, `issuedCredential` and
`worldAfterSAN` name the values a successful `generateCredForSAN` run
produces; the lemma `generateCredForSAN_spec` proves that the translation
above computes exactly them. -/

/-- The TBS certificate of the first PEM block of a credential's
certificate buffer (the leaf certificate of the chain), when present. -/
def Credential.leafTBS : Credential → Option Certificate
  | cred =>
    match cred.Cert with
    | [] => none
    | b :: _ =>
      match b.payload with
      | PemPayload.certDER sc => some sc.tbs
      | PemPayload.rawBytes _ => none

/-- The 2048-bit key pair drawn from the injected entropy stream. -/
def issuedKey (w : World) : RSAPrivateKey := ⟨2048, w.entropy.take 256⟩

/-- The certificate template as completed by `generateCredForSAN`: the
validity window starts at the next clock instant, and the serial number is
the big-endian value of the 16 bytes drawn from the global random
stream. -/
def issuedTemplate (c : credManager) (certSAN : certificateSAN)
    (certGUID : String) (w : World) : Certificate :=
  { createCertificateTemplate certGUID certSAN (w.clock.headD 0)
      (w.clock.headD 0 + c.validityPeriod) with
    SerialNumber := Int.ofNat (bytesBE (w.globalRandom.take 16)) }

/-- The signed leaf certificate of a successful run. -/
def issuedCert (c : credManager) (certSAN : certificateSAN)
    (certGUID : String) (w : World) : SignedCert :=
  ⟨issuedTemplate c certSAN certGUID w, c.CaCert.Subject,
    (issuedKey w).Public, c.privateKey.bits :: (w.entropy.drop 256).take 32⟩

/-- The credential of a successful run: certificate buffer holding the PEM
leaf block followed by the PEM CA block, key buffer holding the PEM
PKCS1 block. -/
def issuedCredential (c : credManager) (certSAN : certificateSAN)
    (certGUID : String) (w : World) : Credential :=
  { Cert := [⟨certificatePEMBlockType,
        PemPayload.certDER (issuedCert c certSAN certGUID w)⟩,
      ⟨certificatePEMBlockType, PemPayload.rawBytes c.CaCert.Raw⟩]
    Key := [⟨privateKeyPEMBlockType,
        PemPayload.rawBytes (MarshalPKCS1PrivateKey (issuedKey w))⟩] }

/-- The world after one successful `generateCredForSAN`: 288 entropy bytes,
16 global random bytes and one clock instant consumed. -/
def worldAfterSAN (w : World) : World :=
  ⟨(w.entropy.drop 256).drop 32, w.globalRandom.drop 16, w.clock.tail⟩

theorem rsaGenerateKey_ok (random : List Nat) (h : 256 ≤ random.length) :
    rsaGenerateKey random 2048 =
      Except.ok (⟨2048, random.take 256⟩, random.drop 256) := by
  unfold rsaGenerateKey
  rw [show (2048 : Nat) / 8 = 256 from by norm_num, if_neg (by omega)]

theorem rsaGenerateKey_error (random : List Nat) (h : random.length < 256) :
    rsaGenerateKey random 2048 = Except.error rsaEntropyError := by
  unfold rsaGenerateKey
  rw [show (2048 : Nat) / 8 = 256 from by norm_num, if_pos h]

theorem uuidNewV4_ok (g : List Nat) (h : 16 ≤ g.length) :
    uuidNewV4 g = Except.ok (g.take 16, g.drop 16) := by
  unfold uuidNewV4
  rw [if_neg (by omega)]

theorem uuidNewV4_error (g : List Nat) (h : g.length < 16) :
    uuidNewV4 g = Except.error uuidRandomError := by
  unfold uuidNewV4
  rw [if_pos h]

theorem x509CreateCertificate_ok (random : List Nat)
    (template parent : Certificate) (pub : RSAPublicKey)
    (caPriv : RSAPrivateKey) (h : 32 ≤ random.length) :
    x509CreateCertificate random template parent pub caPriv =
      Except.ok (⟨template, parent.Subject, pub, caPriv.bits :: random.take 32⟩,
        random.drop 32) := by
  unfold x509CreateCertificate
  rw [if_neg (by omega)]

theorem x509CreateCertificate_error (random : List Nat)
    (template parent : Certificate) (pub : RSAPublicKey)
    (caPriv : RSAPrivateKey) (h : random.length < 32) :
    x509CreateCertificate random template parent pub caPriv =
      Except.error signEntropyError := by
  unfold x509CreateCertificate
  rw [if_pos h]

theorem generateCredForSAN_spec (c : credManager) (certSAN : certificateSAN)
    (certGUID : String) (w : World) (hE : 288 ≤ w.entropy.length)
    (hG : 16 ≤ w.globalRandom.length) :
    generateCredForSAN c certSAN certGUID w =
      ((issuedCredential c certSAN certGUID w, none), worldAfterSAN w) := by
  have h1 := rsaGenerateKey_ok w.entropy (by omega)
  have h2 := uuidNewV4_ok w.globalRandom hG
  have h3 := fun t p pk ck => x509CreateCertificate_ok (w.entropy.drop 256)
    t p pk ck (by rw [List.length_drop]; omega)
  simp only [generateCredForSAN, h1, h2, h3, pemEncode, World.now,
    issuedCredential, issuedCert, issuedTemplate, issuedKey, worldAfterSAN,
    MarshalPKCS1PrivateKey, RSAPrivateKey.Public, List.nil_append,
    List.singleton_append]

theorem generateCredForSAN_success_lengths (c : credManager)
    (certSAN : certificateSAN) (certGUID : String) (w : World)
    (h : (generateCredForSAN c certSAN certGUID w).1.2 = none) :
    288 ≤ w.entropy.length ∧ 16 ≤ w.globalRandom.length := by
  by_cases h256 : 256 ≤ w.entropy.length
  · by_cases hG : 16 ≤ w.globalRandom.length
    · by_cases h288 : 288 ≤ w.entropy.length
      · exact ⟨h288, hG⟩
      · exfalso
        have h1 := rsaGenerateKey_ok w.entropy h256
        have h2 := uuidNewV4_ok w.globalRandom hG
        have h3 := fun t p pk ck => x509CreateCertificate_error
          (w.entropy.drop 256) t p pk ck (by rw [List.length_drop]; omega)
        simp [generateCredForSAN, h1, h2, h3, World.now] at h
    · exfalso
      have h1 := rsaGenerateKey_ok w.entropy h256
      have h2 := uuidNewV4_error w.globalRandom (by omega)
      simp [generateCredForSAN, h1, h2, World.now] at h
  · exfalso
    have h1 := rsaGenerateKey_error w.entropy (by omega)
    simp [generateCredForSAN, h1] at h

theorem generateCredForSAN_success (c : credManager)
    (certSAN : certificateSAN) (certGUID : String) (w : World)
    (h : (generateCredForSAN c certSAN certGUID w).1.2 = none) :
    generateCredForSAN c certSAN certGUID w =
      ((issuedCredential c certSAN certGUID w, none), worldAfterSAN w) := by
  obtain ⟨hE, hG⟩ := generateCredForSAN_success_lengths c certSAN certGUID w h
  exact generateCredForSAN_spec c certSAN certGUID w hE hG

theorem leafTBS_issuedCredential (c : credManager) (certSAN : certificateSAN)
    (certGUID : String) (w : World) :
    (issuedCredential c certSAN certGUID w).leafTBS =
      some (issuedTemplate c certSAN certGUID w) := rfl

theorem generateCreds_success (c : credManager) (container : Container)
    (certGUID : String) (w : World)
    (h : (generateCreds c container certGUID w).1.2 = none) :
    (generateCredForSAN c (sanID container) certGUID w).1.2 = none ∧
    (generateCredForSAN c (sanC2C container) certGUID
      (generateCredForSAN c (sanID container) certGUID w).2).1.2 = none ∧
    (generateCreds c container certGUID w).1.1 =
      { InstanceIdentityCredential :=
          (generateCredForSAN c (sanID container) certGUID w).1.1
        C2CCredential :=
          (generateCredForSAN c (sanC2C container) certGUID
            (generateCredForSAN c (sanID container) certGUID w).2).1.1 } := by
  simp only [generateCreds] at h ⊢
  cases h1 : (generateCredForSAN c (sanID container) certGUID w).1.2 with
  | some e => simp only [h1] at h; simp at h
  | none =>
    simp only [h1] at h ⊢
    cases h2 : (generateCredForSAN c (sanC2C container) certGUID
        (generateCredForSAN c (sanID container) certGUID w).2).1.2 with
    | some e => simp only [h2] at h; simp at h
    | none => simp only [h2]; exact ⟨trivial, trivial, trivial⟩

/-! ## Claims about credential generation (C7, C8, C9, C10) -/

set_option maxRecDepth 4000 in
/-- Counterexample to C7 as stated: two runs with identical injected
entropy streams and identical clocks (and identical manager, subject and
identifier) both succeed yet produce different `Credential` values,
because the serial number is drawn by `uuid.NewV4()` from the
process-global randomness, which differs between the two runs. -/
theorem c7_counterexample :
    (generateCredForSAN
        ⟨hour, ⟨1, ⟨"ca", []⟩, [], [], 0, 0, 0, [], [1, 2, 3]⟩, ⟨2048, [9]⟩, []⟩
        { IPAddress := "10.0.0.1" } "g"
        ⟨List.replicate 288 7, List.replicate 16 1, [0]⟩).1.2 = none ∧
    (generateCredForSAN
        ⟨hour, ⟨1, ⟨"ca", []⟩, [], [], 0, 0, 0, [], [1, 2, 3]⟩, ⟨2048, [9]⟩, []⟩
        { IPAddress := "10.0.0.1" } "g"
        ⟨List.replicate 288 7, List.replicate 16 2, [0]⟩).1.2 = none ∧
    (⟨List.replicate 288 7, List.replicate 16 1, [0]⟩ : World).entropy =
      (⟨List.replicate 288 7, List.replicate 16 2, [0]⟩ : World).entropy ∧
    (⟨List.replicate 288 7, List.replicate 16 1, [0]⟩ : World).clock =
      (⟨List.replicate 288 7, List.replicate 16 2, [0]⟩ : World).clock ∧
    (generateCredForSAN
        ⟨hour, ⟨1, ⟨"ca", []⟩, [], [], 0, 0, 0, [], [1, 2, 3]⟩, ⟨2048, [9]⟩, []⟩
        { IPAddress := "10.0.0.1" } "g"
        ⟨List.replicate 288 7, List.replicate 16 1, [0]⟩).1.1 ≠
      (generateCredForSAN
        ⟨hour, ⟨1, ⟨"ca", []⟩, [], [], 0, 0, 0, [], [1, 2, 3]⟩, ⟨2048, [9]⟩, []⟩
        { IPAddress := "10.0.0.1" } "g"
        ⟨List.replicate 288 7, List.replicate 16 2, [0]⟩).1.1 := by
  refine ⟨rfl, rfl, rfl, rfl, ?_⟩
  decide

/-- C7 (amended): the 2048-bit key pair is derived only from the
constructor-injected entropy reader (the key buffer of a successful run is
a function of the entropy stream alone, so two successful runs with
identical entropy streams agree on it), while the certificate serial
number is derived from 128 bits (16 bytes) drawn from the process-global
randomness stream used by `uuid.NewV4`. -/
theorem c7_randomness_dataflow (c : credManager) (certSAN : certificateSAN)
    (certGUID : String) (w1 w2 : World)
    (hE : w1.entropy = w2.entropy)
    (h1 : (generateCredForSAN c certSAN certGUID w1).1.2 = none)
    (h2 : (generateCredForSAN c certSAN certGUID w2).1.2 = none) :
    (generateCredForSAN c certSAN certGUID w1).1.1.Key =
      [⟨privateKeyPEMBlockType,
        PemPayload.rawBytes (MarshalPKCS1PrivateKey ⟨2048, w1.entropy.take 256⟩)⟩] ∧
    (generateCredForSAN c certSAN certGUID w1).1.1.Key =
      (generateCredForSAN c certSAN certGUID w2).1.1.Key ∧
    ∃ t1, (generateCredForSAN c certSAN certGUID w1).1.1.leafTBS = some t1 ∧
      t1.SerialNumber = Int.ofNat (bytesBE (w1.globalRandom.take 16)) := by
  rw [generateCredForSAN_success c certSAN certGUID w1 h1,
    generateCredForSAN_success c certSAN certGUID w2 h2]
  refine ⟨rfl, ?_, _, rfl, rfl⟩
  simp [issuedCredential, issuedKey, hE]

/-- C8: every certificate template carries the generation identifier as
subject common name, DNS SANs consisting of the identifier followed by the
internal-route hostnames, an IP SAN exactly when an IP is given, key
usages digital signature, key encipherment and key agreement, and extended
key usages for client and server authentication; on success both issued
credentials of a cycle use templates whose common name is the cycle's
generation identifier. -/
theorem c8_certificate_template_contents :
    (∀ (guid : String) (certSAN : certificateSAN) (notBefore notAfter : Int),
      (createCertificateTemplate guid certSAN notBefore notAfter).Subject.CommonName
          = guid ∧
      (createCertificateTemplate guid certSAN notBefore notAfter).DNSNames =
        guid :: certSAN.InternalRoutes.map (fun route => route.Hostname) ∧
      (createCertificateTemplate guid certSAN notBefore notAfter).IPAddresses =
        (if certSAN.IPAddress.length = 0 then []
         else [netParseIP certSAN.IPAddress]) ∧
      (createCertificateTemplate guid certSAN notBefore notAfter).KeyUsage =
        (KeyUsageDigitalSignature ||| KeyUsageKeyEncipherment |||
          KeyUsageKeyAgreement) ∧
      (createCertificateTemplate guid certSAN notBefore notAfter).ExtKeyUsage =
        [ExtKeyUsage.clientAuth, ExtKeyUsage.serverAuth]) ∧
    (∀ (c : credManager) (container : Container) (certGUID : String) (w : World),
      (generateCreds c container certGUID w).1.2 = none →
      ∃ t1 t2,
        (generateCreds c container certGUID w).1.1.InstanceIdentityCredential.leafTBS
            = some t1 ∧
        (generateCreds c container certGUID w).1.1.C2CCredential.leafTBS = some t2 ∧
        t1.Subject.CommonName = certGUID ∧ t2.Subject.CommonName = certGUID) := by
  constructor
  · exact fun guid certSAN notBefore notAfter => ⟨rfl, rfl, rfl, rfl, rfl⟩
  · intro c container certGUID w h
    obtain ⟨h1, h2, h3⟩ := generateCreds_success c container certGUID w h
    rw [h3, generateCredForSAN_success c (sanC2C container) certGUID
        (generateCredForSAN c (sanID container) certGUID w).2 h2,
      generateCredForSAN_success c (sanID container) certGUID w h1]
    exact ⟨_, _, rfl, rfl, rfl, rfl⟩

/-- C9: on success the certificate buffer is exactly the PEM leaf block
followed by the PEM CA block and the key buffer is exactly the PEM RSA
private key block; on any failure the zero-value `Credential` is returned
alongside the error. -/
theorem c9_output_shape_and_zero_on_failure :
    (∀ (c : credManager) (certSAN : certificateSAN) (certGUID : String)
        (w : World),
      (generateCredForSAN c certSAN certGUID w).1.2 = none →
      ∃ sc keyBytes,
        (generateCredForSAN c certSAN certGUID w).1.1.Cert =
          [⟨certificatePEMBlockType, PemPayload.certDER sc⟩,
           ⟨certificatePEMBlockType, PemPayload.rawBytes c.CaCert.Raw⟩] ∧
        (generateCredForSAN c certSAN certGUID w).1.1.Key =
          [⟨privateKeyPEMBlockType, PemPayload.rawBytes keyBytes⟩]) ∧
    (∀ (c : credManager) (certSAN : certificateSAN) (certGUID : String)
        (w : World) (e : GoErr),
      (generateCredForSAN c certSAN certGUID w).1.2 = some e →
      (generateCredForSAN c certSAN certGUID w).1.1 = {}) := by
  constructor
  · intro c certSAN certGUID w h
    rw [generateCredForSAN_success c certSAN certGUID w h]
    exact ⟨_, _, rfl, rfl⟩
  · intro c certSAN certGUID w e h
    by_cases h256 : 256 ≤ w.entropy.length
    · by_cases hG : 16 ≤ w.globalRandom.length
      · by_cases h288 : 288 ≤ w.entropy.length
        · rw [generateCredForSAN_spec c certSAN certGUID w h288 hG] at h
          simp at h
        · have h1 := rsaGenerateKey_ok w.entropy h256
          have h3 := fun t p pk ck => x509CreateCertificate_error
            (w.entropy.drop 256) t p pk ck (by rw [List.length_drop]; omega)
          simp [generateCredForSAN, h1, uuidNewV4_ok w.globalRandom hG, h3,
            World.now]
      · have h1 := rsaGenerateKey_ok w.entropy h256
        have h2 := uuidNewV4_error w.globalRandom (by omega)
        simp [generateCredForSAN, h1, h2, World.now]
    · have h1 := rsaGenerateKey_error w.entropy (by omega)
      simp [generateCredForSAN, h1]

/-- C10: in any successful cycle the instance-identity certificate's IP SAN
is the internal IP, falling back to the external IP exactly when the
internal IP is empty (and empty when both are empty), with no
internal-route DNS names; the container-to-container certificate carries
the internal-route hostnames as DNS SANs and no IP SAN. -/
theorem c10_san_assignment (c : credManager) (container : Container)
    (certGUID : String) (w : World)
    (h : (generateCreds c container certGUID w).1.2 = none) :
    ∃ t1 t2,
      (generateCreds c container certGUID w).1.1.InstanceIdentityCredential.leafTBS
          = some t1 ∧
      (generateCreds c container certGUID w).1.1.C2CCredential.leafTBS = some t2 ∧
      t1.IPAddresses =
        (if (if container.InternalIP.length = 0 then container.ExternalIP
             else container.InternalIP).length = 0 then []
         else [netParseIP
            (if container.InternalIP.length = 0 then container.ExternalIP
             else container.InternalIP)]) ∧
      t1.DNSNames = [certGUID] ∧
      t2.IPAddresses = [] ∧
      t2.DNSNames =
        certGUID :: container.InternalRoutes.map (fun route => route.Hostname) := by
  obtain ⟨h1, h2, h3⟩ := generateCreds_success c container certGUID w h
  rw [h3, generateCredForSAN_success c (sanC2C container) certGUID
      (generateCredForSAN c (sanID container) certGUID w).2 h2,
    generateCredForSAN_success c (sanID container) certGUID w h1]
  refine ⟨_, _, rfl, rfl, ?_, ?_, ?_, ?_⟩
  · simp [issuedCert, issuedTemplate, createCertificateTemplate, sanID]
  · simp [issuedCert, issuedTemplate, createCertificateTemplate, sanID]
  · simp [issuedCert, issuedTemplate, createCertificateTemplate, sanC2C,
      String.length_empty]
  · simp [issuedCert, issuedTemplate, createCertificateTemplate, sanC2C]

/-! ## Fan-out characterization lemmas -/

theorem closeHandlers_eq (hs : List CredentialHandler) (i : Nat)
    (creds : Credentials) (container : Container) :
    closeHandlers hs i creds container =
      (List.range' i hs.length).map
        (fun j => Action.closeCall j creds container) := by
  induction hs generalizing i with
  | nil => rfl
  | cons h hs ih =>
    simp only [closeHandlers, List.length_cons, List.range'_succ, List.map_cons,
      ih]

theorem updateHandlers_all_ok (hs : List CredentialHandler) (i : Nat)
    (creds : Credentials) (container : Container)
    (hok : ∀ g ∈ hs, g.Update creds container = none) :
    updateHandlers hs i creds container =
      ((List.range' i hs.length).map
        (fun j => Action.updateCall j creds container), none) := by
  induction hs generalizing i with
  | nil => rfl
  | cons h hs ih =>
    have hh := hok h (List.mem_cons_self h hs)
    simp only [updateHandlers, hh]
    rw [ih (i + 1) (fun g hg => hok g (List.mem_cons_of_mem h hg))]
    simp [List.length_cons, List.range'_succ]

theorem updateHandlers_first_failure (pre : List CredentialHandler)
    (h : CredentialHandler) (post : List CredentialHandler) (i : Nat)
    (creds : Credentials) (container : Container) (e : GoErr)
    (hpre : ∀ g ∈ pre, g.Update creds container = none)
    (hfail : h.Update creds container = some e) :
    updateHandlers (pre ++ h :: post) i creds container =
      ((List.range' i (pre.length + 1)).map
        (fun j => Action.updateCall j creds container), some e) := by
  induction pre generalizing i with
  | nil =>
    simp only [List.nil_append, updateHandlers, hfail, List.length_nil,
      Nat.zero_add, List.range'_one, List.map_cons, List.map_nil]
  | cons g pre ih =>
    have hg := hpre g (List.mem_cons_self g pre)
    rw [List.cons_append]
    simp only [updateHandlers, hg]
    rw [ih (i + 1) (fun x hx => hpre x (List.mem_cons_of_mem g hx))]
    simp [List.length_cons, List.range'_succ]

theorem removeCredDirLoop_calls (hs : List CredentialHandler) (i : Nat)
    (container : Container) :
    (removeCredDirLoop hs i container).1 =
      (List.range' i hs.length).map (fun j => Action.removeDirCall j container) := by
  induction hs generalizing i with
  | nil => rfl
  | cons h hs ih =>
    cases hr : h.RemoveDir container <;>
      simp only [removeCredDirLoop, hr, List.length_cons, List.range'_succ,
        List.map_cons, ih]

theorem removeCredDirLoop_errs (hs : List CredentialHandler) (i : Nat)
    (container : Container) :
    (removeCredDirLoop hs i container).2 =
      hs.filterMap (fun h => h.RemoveDir container) := by
  induction hs generalizing i with
  | nil => rfl
  | cons h hs ih =>
    cases hr : h.RemoveDir container <;>
      simp only [removeCredDirLoop, hr, List.filterMap_cons, ih]

/-! ## Claims about the supervision loop (C3, C4, C5) -/

/-- C3 (amended): when a shutdown signal arrives at the steady-state wait
point and the final credential generation (with the empty generation
identifier) succeeds, the loop calls `Close` exactly once on every handler
in registration order with that final value, ignores every handler `Close`
result, and returns nil. -/
theorem c3_signal_invalidation (c : credManager) (info : Nat → Container)
    (sig : String) (rest : List LoopEvent) (k : Nat) (w : World)
    (h : (generateCreds c (info k) "" w).1.2 = none) :
    steadyLoop c info (LoopEvent.signalReceived sig :: rest) k w =
      ((List.range c.handlers.length).map
        (fun i => Action.closeCall i ((generateCreds c (info k) "" w).1.1)
          (info k)),
       RunResult.returned none) := by
  simp only [steadyLoop, h]
  rw [closeHandlers_eq, List.range_eq_range']

/-- C4: when credential generation fails in a cycle, no handler `Update`
is invoked in that cycle, the failure counter is incremented exactly once,
and the loop returns that error; on an initial-issuance failure readiness
is never signalled (the cycle trace is exactly the one failure-counter
increment). -/
theorem c4_generation_failure_handling :
    (∀ (c : credManager) (info : Nat → Container) (events : List LoopEvent)
        (w : World) (e : GoErr),
      (generateCreds c (info 0) (info 0).Guid (w.now).2).1.2 = some e →
      Runner c info events w =
        ([Action.incrementCounter CredCreationFailedCount],
         RunResult.returned (some e))) ∧
    (∀ (c : credManager) (info : Nat → Container) (rest : List LoopEvent)
        (k : Nat) (w : World) (e : GoErr),
      (generateCreds c (info k) (info k).Guid (w.now).2).1.2 = some e →
      steadyLoop c info (LoopEvent.timerFired :: rest) k w =
        ([Action.incrementCounter CredCreationFailedCount],
         RunResult.returned (some e))) := by
  constructor
  · intro c info events w e h
    simp only [Runner, h]
  · intro c info rest k w e h
    simp only [steadyLoop, h]

/-- C5: handlers receive `Update` sequentially in registration order with
the same credentials; when every handler accepts, each is called exactly
once, and when the handler at index i (the length of the prefix of
accepting handlers) fails, handlers 0..i were each called exactly once, no
later handler is called, and the loop terminates immediately with that
error, in the initial cycle as well as in a timer cycle. -/
theorem c5_update_fanout_failure :
    (∀ (hs : List CredentialHandler) (creds : Credentials)
        (container : Container),
      (∀ g ∈ hs, g.Update creds container = none) →
      updateHandlers hs 0 creds container =
        ((List.range hs.length).map
          (fun j => Action.updateCall j creds container), none)) ∧
    (∀ (pre : List CredentialHandler) (h : CredentialHandler)
        (post : List CredentialHandler) (creds : Credentials)
        (container : Container) (e : GoErr),
      (∀ g ∈ pre, g.Update creds container = none) →
      h.Update creds container = some e →
      updateHandlers (pre ++ h :: post) 0 creds container =
        ((List.range (pre.length + 1)).map
          (fun j => Action.updateCall j creds container), some e)) ∧
    (∀ (c : credManager) (info : Nat → Container) (events : List LoopEvent)
        (w : World) (e : GoErr),
      (generateCreds c (info 0) (info 0).Guid (w.now).2).1.2 = none →
      (updateHandlers c.handlers 0
        (generateCreds c (info 0) (info 0).Guid (w.now).2).1.1 (info 0)).2 =
          some e →
      Runner c info events w =
        ((updateHandlers c.handlers 0
          (generateCreds c (info 0) (info 0).Guid (w.now).2).1.1 (info 0)).1,
         RunResult.returned (some e))) ∧
    (∀ (c : credManager) (info : Nat → Container) (rest : List LoopEvent)
        (k : Nat) (w : World) (e : GoErr),
      (generateCreds c (info k) (info k).Guid (w.now).2).1.2 = none →
      (updateHandlers c.handlers 0
        (generateCreds c (info k) (info k).Guid (w.now).2).1.1 (info k)).2 =
          some e →
      steadyLoop c info (LoopEvent.timerFired :: rest) k w =
        ([Action.incrementCounter CredCreationSucceededCount,
          Action.sendDuration CredCreationSucceededDuration
            ((((generateCreds c (info k) (info k).Guid (w.now).2).2.now).1 -
              (w.now).1))] ++
          (updateHandlers c.handlers 0
            (generateCreds c (info k) (info k).Guid (w.now).2).1.1 (info k)).1,
         RunResult.returned (some e))) := by
  refine ⟨?_, ?_, ?_, ?_⟩
  · intro hs creds container hok
    rw [List.range_eq_range']
    exact updateHandlers_all_ok hs 0 creds container hok
  · intro pre h post creds container e hpre hfail
    rw [List.range_eq_range']
    exact updateHandlers_first_failure pre h post 0 creds container e hpre hfail
  · intro c info events w e hgen hupd
    simp only [Runner, hgen, hupd]
  · intro c info rest k w e hgen hupd
    simp only [steadyLoop, hgen, hupd]

/-! ## Claim about RemoveCredDir (C6) -/

/-- The separator-joined message the specification describes: the error
messages in order, each adjacent pair separated by the two-character
separator. -/
def sepJoinTail : List String → String
  | [] => ""
  | e :: es => "; " ++ e ++ sepJoinTail es

/-- Spec-described join of error messages with the separator. -/
def sepJoin : List String → String
  | [] => ""
  | e :: es => e ++ sepJoinTail es

theorem string_append_ne_empty (s t : String) (h : s ≠ "") : s ++ t ≠ "" := by
  intro he
  have hl := congrArg String.length he
  rw [String.length_append, String.length_empty] at hl
  apply h
  cases s with
  | mk data =>
    rw [String.length_mk] at hl
    cases data with
    | nil => rfl
    | cons a as => simp only [List.length_cons] at hl; omega

theorem errorFormat_go (errs : List GoErr) (s : String) (hs : s ≠ "") :
    List.foldl (fun s e => (if s ≠ "" then s ++ "; " else s) ++ e) s errs =
      s ++ sepJoinTail errs := by
  induction errs generalizing s with
  | nil => simp [sepJoinTail, String.append_empty]
  | cons e es ih =>
    rw [List.foldl_cons, if_pos hs,
      ih ((s ++ "; ") ++ e)
        (string_append_ne_empty _ _ (string_append_ne_empty _ _ hs))]
    simp [sepJoinTail, String.append_assoc]

theorem errorFormat_eq_sepJoin (errs : List GoErr)
    (hne : ∀ e ∈ errs, e ≠ "") : errorFormat errs = sepJoin errs := by
  cases errs with
  | nil => rfl
  | cons e es =>
    have he := hne e (List.mem_cons_self e es)
    unfold errorFormat
    rw [List.foldl_cons]
    have hfirst : ((if ("" : String) ≠ "" then "" ++ "; " else "") ++ e) = e := by
      simp [String.empty_append]
    rw [hfirst, errorFormat_go es e he]
    rfl

/-- C6 (amended): `RemoveCredDir` calls `RemoveDir` on every handler
regardless of earlier failures and returns nil exactly when every handler
succeeded; otherwise it returns one combined error built by appending each
failing handler's message, inserting the separator only when the message
accumulated so far is nonempty — which coincides with the plain
separator-join whenever every failing message is nonempty. -/
theorem c6_remove_cred_dir (c : credManager) (container : Container) :
    (RemoveCredDir c container).1 =
      (List.range c.handlers.length).map
        (fun i => Action.removeDirCall i container) ∧
    ((RemoveCredDir c container).2 = none ↔
      ∀ h ∈ c.handlers, h.RemoveDir container = none) ∧
    (c.handlers.filterMap (fun h => h.RemoveDir container) ≠ [] →
      (∀ e ∈ c.handlers.filterMap (fun h => h.RemoveDir container), e ≠ "") →
      (RemoveCredDir c container).2 =
        some (sepJoin (c.handlers.filterMap (fun h => h.RemoveDir container)))) := by
  refine ⟨?_, ?_, ?_⟩
  · show (removeCredDirLoop c.handlers 0 container).1 = _
    rw [removeCredDirLoop_calls, List.range_eq_range']
  · show (if (removeCredDirLoop c.handlers 0 container).2 = [] then none
        else some (errorFormat (removeCredDirLoop c.handlers 0 container).2)) =
        none ↔ _
    rw [removeCredDirLoop_errs]
    constructor
    · intro hnone
      by_cases hnil : c.handlers.filterMap (fun h => h.RemoveDir container) = []
      · exact List.filterMap_eq_nil_iff.mp hnil
      · rw [if_neg hnil] at hnone
        exact absurd hnone (by simp)
    · intro hall
      rw [if_pos (List.filterMap_eq_nil_iff.mpr hall)]
  · intro hne hnonempty
    show (if (removeCredDirLoop c.handlers 0 container).2 = [] then none
        else some (errorFormat (removeCredDirLoop c.handlers 0 container).2)) = _
    rw [removeCredDirLoop_errs, if_neg hne,
      errorFormat_eq_sepJoin _ hnonempty]

/-! ## Concrete fixtures for counterexamples and witnesses -/

def caCertA : Certificate := ⟨1, ⟨"test-ca", []⟩, [], [], 0, 0, 0, [], [1, 2, 3]⟩

def containerA : Container :=
  ⟨"guid-1", "10.0.0.1", "192.168.0.9", [⟨"route-a"⟩], ⟨["ou-1"]⟩⟩

def okHandler : CredentialHandler :=
  ⟨fun _ _ => none, fun _ _ => none, fun _ => none⟩

def failUpdateHandler : CredentialHandler :=
  ⟨fun _ _ => some "update failed", fun _ _ => none, fun _ => none⟩

def emptyMsgRemoveHandler : CredentialHandler :=
  ⟨fun _ _ => none, fun _ _ => none, fun _ => some ""⟩

def xMsgRemoveHandler : CredentialHandler :=
  ⟨fun _ _ => none, fun _ _ => none, fun _ => some "x"⟩

def mgrWith (hs : List CredentialHandler) : credManager :=
  ⟨24 * hour, caCertA, ⟨2048, [9]⟩, hs⟩

def sanA : certificateSAN := { IPAddress := "10.0.0.1" }

/-- Enough streams for exactly one generation cycle (two credentials). -/
def worldOneCycle : World := ⟨List.replicate 576 7, List.replicate 32 3, [0, 5]⟩

def worldEmpty : World := ⟨[], [], []⟩

def w7a : World := ⟨List.replicate 288 7, List.replicate 16 1, [0]⟩

def w7b : World := ⟨List.replicate 288 7, List.replicate 16 2, [0]⟩

def isCloseCall : Action → Bool
  | Action.closeCall _ _ _ => true
  | _ => false

/-! ## Counterexamples and witnesses for the loop and teardown claims -/

set_option maxRecDepth 20000 in
/-- Counterexample to C3 as stated: a run whose entropy stream covers only
the initial issuance receives a shutdown signal at the steady-state wait
point, the final generation fails, and the loop returns that non-nil error
without calling `Close` on any handler — the signal path does not always
return nil. -/
theorem c3_counterexample :
    (Runner (mgrWith [okHandler]) (fun _ => containerA)
        [LoopEvent.signalReceived "SIGTERM"] worldOneCycle).2 =
      RunResult.returned (some rsaEntropyError) ∧
    (Runner (mgrWith [okHandler]) (fun _ => containerA)
        [LoopEvent.signalReceived "SIGTERM"] worldOneCycle).1.filter isCloseCall
      = [] := by
  refine ⟨?_, ?_⟩ <;> decide

set_option maxRecDepth 20000 in
/-- Witness for the amended C3: one handler, a signal script, and streams
covering the final generation. -/
theorem c3_signal_invalidation_witness :
    steadyLoop (mgrWith [okHandler]) (fun _ => containerA)
        [LoopEvent.signalReceived "SIGTERM"] 0 worldOneCycle =
      ((List.range 1).map (fun i => Action.closeCall i
        ((generateCreds (mgrWith [okHandler]) containerA "" worldOneCycle).1.1)
        containerA),
       RunResult.returned none) :=
  c3_signal_invalidation (mgrWith [okHandler]) (fun _ => containerA) "SIGTERM"
    [] 0 worldOneCycle (by decide)

/-- Witness for C4: with empty streams the initial issuance and a timer
cycle both fail generating, producing exactly one failure-counter
increment and the error. -/
theorem c4_generation_failure_handling_witness :
    Runner (mgrWith [okHandler]) (fun _ => containerA) [] worldEmpty =
      ([Action.incrementCounter CredCreationFailedCount],
       RunResult.returned (some rsaEntropyError)) ∧
    steadyLoop (mgrWith [okHandler]) (fun _ => containerA)
        [LoopEvent.timerFired] 0 worldEmpty =
      ([Action.incrementCounter CredCreationFailedCount],
       RunResult.returned (some rsaEntropyError)) :=
  ⟨c4_generation_failure_handling.1 (mgrWith [okHandler]) (fun _ => containerA)
      [] worldEmpty rsaEntropyError (by decide),
   c4_generation_failure_handling.2 (mgrWith [okHandler]) (fun _ => containerA)
      [] 0 worldEmpty rsaEntropyError (by decide)⟩

set_option maxRecDepth 20000 in
/-- Witness for C5: two handlers whose second `Update` fails; the fan-out
calls both exactly once and the loop (initial and timer cycle) terminates
with that error right after the fan-out. -/
theorem c5_update_fanout_failure_witness :
    updateHandlers [okHandler] 0 {} containerA =
      ((List.range 1).map (fun j => Action.updateCall j {} containerA), none) ∧
    updateHandlers [okHandler, failUpdateHandler] 0 {} containerA =
      ((List.range 2).map (fun j => Action.updateCall j {} containerA),
       some "update failed") ∧
    Runner (mgrWith [okHandler, failUpdateHandler]) (fun _ => containerA) []
        worldOneCycle =
      ((updateHandlers [okHandler, failUpdateHandler] 0
        (generateCreds (mgrWith [okHandler, failUpdateHandler]) containerA
          "guid-1" ((worldOneCycle.now).2)).1.1 containerA).1,
       RunResult.returned (some "update failed")) ∧
    steadyLoop (mgrWith [okHandler, failUpdateHandler]) (fun _ => containerA)
        [LoopEvent.timerFired] 0 worldOneCycle =
      ([Action.incrementCounter CredCreationSucceededCount,
        Action.sendDuration CredCreationSucceededDuration 0] ++
        (updateHandlers [okHandler, failUpdateHandler] 0
          (generateCreds (mgrWith [okHandler, failUpdateHandler]) containerA
            "guid-1" ((worldOneCycle.now).2)).1.1 containerA).1,
       RunResult.returned (some "update failed")) :=
  ⟨c5_update_fanout_failure.1 [okHandler] {} containerA (by
      intro g hg
      simp only [List.mem_singleton] at hg
      subst hg
      rfl),
   c5_update_fanout_failure.2.1 [okHandler] failUpdateHandler [] {} containerA
     "update failed" (by
      intro g hg
      simp only [List.mem_singleton] at hg
      subst hg
      rfl) rfl,
   c5_update_fanout_failure.2.2.1 (mgrWith [okHandler, failUpdateHandler])
     (fun _ => containerA) [] worldOneCycle "update failed" (by decide)
     (by decide),
   c5_update_fanout_failure.2.2.2 (mgrWith [okHandler, failUpdateHandler])
     (fun _ => containerA) [] 0 worldOneCycle "update failed" (by decide)
     (by decide)⟩

/-- Counterexample to C6 as stated: with a first failing handler whose
error message is empty and a second whose message is "x", the combined
message is "x", not the plain separator-join "; x" — the source inserts
the separator only when the accumulated message is nonempty. -/
theorem c6_counterexample :
    (RemoveCredDir
        (mgrWith [emptyMsgRemoveHandler, xMsgRemoveHandler, okHandler])
        containerA).2 = some "x" ∧
    sepJoin ["", "x"] = "; x" ∧
    (RemoveCredDir
        (mgrWith [emptyMsgRemoveHandler, xMsgRemoveHandler, okHandler])
        containerA).2 ≠ some (sepJoin ["", "x"]) := by
  refine ⟨?_, ?_, ?_⟩ <;> decide

/-- Witness for the amended C6: three handlers with one nonempty failure;
all three are called and the combined message is the separator-join of the
failing messages. -/
theorem c6_remove_cred_dir_witness :
    (RemoveCredDir (mgrWith [okHandler, xMsgRemoveHandler, okHandler])
        containerA).1 =
      (List.range 3).map (fun i => Action.removeDirCall i containerA) ∧
    (RemoveCredDir (mgrWith [okHandler, xMsgRemoveHandler, okHandler])
        containerA).2 = some (sepJoin ["x"]) :=
  ⟨(c6_remove_cred_dir (mgrWith [okHandler, xMsgRemoveHandler, okHandler])
      containerA).1,
   (c6_remove_cred_dir (mgrWith [okHandler, xMsgRemoveHandler, okHandler])
      containerA).2.2 (by decide) (by decide)⟩

/-! ## Witnesses for the generation claims -/

set_option maxRecDepth 20000 in
/-- Witness for the amended C7 at two successful runs sharing the entropy
stream. -/
theorem c7_randomness_dataflow_witness :
    (generateCredForSAN (mgrWith []) sanA "g" w7a).1.1.Key =
      [⟨privateKeyPEMBlockType, PemPayload.rawBytes
        (MarshalPKCS1PrivateKey ⟨2048, w7a.entropy.take 256⟩)⟩] ∧
    (generateCredForSAN (mgrWith []) sanA "g" w7a).1.1.Key =
      (generateCredForSAN (mgrWith []) sanA "g" w7b).1.1.Key ∧
    ∃ t1, (generateCredForSAN (mgrWith []) sanA "g" w7a).1.1.leafTBS = some t1 ∧
      t1.SerialNumber = Int.ofNat (bytesBE (w7a.globalRandom.take 16)) :=
  c7_randomness_dataflow (mgrWith []) sanA "g" w7a w7b rfl (by decide)
    (by decide)

set_option maxRecDepth 20000 in
/-- Witness for C8 on a successful cycle. -/
theorem c8_certificate_template_contents_witness :
    ∃ t1 t2,
      (generateCreds (mgrWith [okHandler]) containerA "cycle-guid"
        worldOneCycle).1.1.InstanceIdentityCredential.leafTBS = some t1 ∧
      (generateCreds (mgrWith [okHandler]) containerA "cycle-guid"
        worldOneCycle).1.1.C2CCredential.leafTBS = some t2 ∧
      t1.Subject.CommonName = "cycle-guid" ∧
      t2.Subject.CommonName = "cycle-guid" :=
  c8_certificate_template_contents.2 (mgrWith [okHandler]) containerA
    "cycle-guid" worldOneCycle (by decide)

set_option maxRecDepth 20000 in
/-- Witness for C9: output shape on a successful run, zero-value
credential on a failing run. -/
theorem c9_output_shape_and_zero_on_failure_witness :
    (∃ sc keyBytes,
      (generateCredForSAN (mgrWith [okHandler]) sanA "g" w7a).1.1.Cert =
        [⟨certificatePEMBlockType, PemPayload.certDER sc⟩,
         ⟨certificatePEMBlockType,
          PemPayload.rawBytes (mgrWith [okHandler]).CaCert.Raw⟩] ∧
      (generateCredForSAN (mgrWith [okHandler]) sanA "g" w7a).1.1.Key =
        [⟨privateKeyPEMBlockType, PemPayload.rawBytes keyBytes⟩]) ∧
    (generateCredForSAN (mgrWith [okHandler]) sanA "g" worldEmpty).1.1 = {} :=
  ⟨c9_output_shape_and_zero_on_failure.1 (mgrWith [okHandler]) sanA "g" w7a
      (by decide),
   c9_output_shape_and_zero_on_failure.2 (mgrWith [okHandler]) sanA "g"
      worldEmpty rsaEntropyError (by decide)⟩

set_option maxRecDepth 20000 in
/-- Witness for C10 on a successful cycle: the instance-identity
certificate carries the internal IP and no route names, the
container-to-container certificate carries the route hostname and no
IP. -/
theorem c10_san_assignment_witness :
    ∃ t1 t2,
      (generateCreds (mgrWith [okHandler]) containerA "g"
        worldOneCycle).1.1.InstanceIdentityCredential.leafTBS = some t1 ∧
      (generateCreds (mgrWith [okHandler]) containerA "g"
        worldOneCycle).1.1.C2CCredential.leafTBS = some t2 ∧
      t1.IPAddresses = [netParseIP "10.0.0.1"] ∧
      t1.DNSNames = ["g"] ∧
      t2.IPAddresses = [] ∧
      t2.DNSNames = ["g", "route-a"] :=
  c10_san_assignment (mgrWith [okHandler]) containerA "g" worldOneCycle
    (by decide)

end CredManagerProof
